import Mathlib

/-!
Shallow embedding of the `usePipeline` React hook
(`starter-template` react-vite, `src/hooks/usePipeline.ts`).

The hook holds four pieces of React state — `ready`, `loading`, `error`,
`output` — plus a mutable ref `pipelineRef`.  An effect keyed on
`[task, options.model, options.device]` starts an asynchronous load of a
pipeline handle; its cleanup sets a closure-captured `cancelled` flag, so a
load completion mutates state only if its effect generation is still the
current one.  `run` checks `pipelineRef.current`, sets `loading`, awaits the
handle, and records the outcome; `reset` clears `output` and `error`.

We model this as an event-step semantics.  `HookState` carries the five
observable fields together with bookkeeping that makes the asynchronous
structure explicit: `gen` is the current effect generation (each re-run of
the effect increments it, which is exactly what setting the previous
closure's `cancelled` flag achieves), `pendingLoads` records the
still-outstanding `pipeline(...)` calls with their generation and requested
configuration, and `pendingInvokes` counts outstanding
`pipelineRef.current(input)` calls.  A pipeline handle is identified by the
configuration that produced it (the handles are opaque; only their identity
matters to the state machine).
-/

/-- Configuration of one effect run: the `task` argument together with
`options.model` and `options.device` (the effect's dependency array). -/
structure Config where
  task : String
  model : Option String
  device : Option String
deriving DecidableEq, Repr

/-- The state of one mounted instance of the hook.  The first five fields
are the React state and ref visible in the source; `gen`, `pendingLoads`
and `pendingInvokes` make the asynchronous bookkeeping explicit. -/
structure HookState where
  ready : Bool
  loading : Bool
  error : Option String
  output : Option String
  pipelineRef : Option Config
  gen : Nat
  pendingLoads : List (Nat × Config)
  pendingInvokes : Nat
deriving DecidableEq, Repr

/-- State at mount time: `useState(false)`, `useState(false)`,
`useState(null)`, `useState(null)`, `useRef(null)`. -/
def initState : HookState :=
  { ready := false, loading := false, error := none, output := none,
    pipelineRef := none, gen := 0, pendingLoads := [], pendingInvokes := 0 }

/-- Events of the hook's lifetime.  `configure` is a run of the init effect
(the initial mount, or a change of `task`/`options.model`/`options.device`,
whose cleanup cancels the previous generation).  `loadResolve g` /
`loadReject g msg` are the resolution of the generation-`g` `pipeline(...)`
promise.  `invokeStart` is a call of `run`; `invokeResolve` /
`invokeReject` are the resolution of an outstanding handle invocation.
`reset` is a call of `reset`. -/
inductive Event where
  | configure (c : Config)
  | loadResolve (g : Nat)
  | loadReject (g : Nat) (msg : String)
  | invokeStart (input : String)
  | invokeResolve (result : String)
  | invokeReject (msg : String)
  | reset
deriving DecidableEq, Repr

/-- One step of the hook, translated clause by clause from the source.

* `configure c`: cleanup of the previous effect sets its `cancelled` flag
  (modelled by `gen := gen + 1`); the new `initPipeline` synchronously does
  `setError(null)` and issues `pipeline(task, options.model, {device})`,
  recorded as a pending load of the new generation.  Nothing else is
  touched: in particular `ready`, `loading`, `output` and
  `pipelineRef.current` keep their values.
* `loadResolve g`: the generation-`g` load resolves with its handle.  If
  `g` is still the current generation (`!cancelled`), the source does
  `pipelineRef.current = pipe; setReady(true)`; otherwise the result is
  dropped.
* `loadReject g msg`: the generation-`g` load rejects.  If `g` is current,
  the catch block does `setError(msg)`; otherwise the failure is dropped.
* `invokeStart`: `run(input)`.  If `pipelineRef.current` is null it does
  `setError('Pipeline not ready')` and returns; otherwise
  `setLoading(true); setError(null)` and the handle invocation becomes
  outstanding.
* `invokeResolve r`: the awaited invocation resolves; `setOutput(result)`
  then the finally block's `setLoading(false)`.  The source has no
  staleness check here.
* `invokeReject msg`: the awaited invocation rejects; the catch block's
  `setError(msg)` then `setLoading(false)`.
* `reset`: `setOutput(null); setError(null)`. -/
def stepE (s : HookState) : Event → HookState
  | .configure c =>
      { s with gen := s.gen + 1, error := none,
               pendingLoads := (s.gen + 1, c) :: s.pendingLoads }
  | .loadResolve g =>
      match s.pendingLoads.lookup g with
      | none => s
      | some pipe =>
          if g = s.gen then
            { s with pendingLoads := s.pendingLoads.filter (fun p => p.1 != g),
                     pipelineRef := some pipe, ready := true }
          else
            { s with pendingLoads := s.pendingLoads.filter (fun p => p.1 != g) }
  | .loadReject g msg =>
      match s.pendingLoads.lookup g with
      | none => s
      | some _ =>
          if g = s.gen then
            { s with pendingLoads := s.pendingLoads.filter (fun p => p.1 != g),
                     error := some msg }
          else
            { s with pendingLoads := s.pendingLoads.filter (fun p => p.1 != g) }
  | .invokeStart _ =>
      if s.pipelineRef = none then
        { s with error := some "Pipeline not ready" }
      else
        { s with loading := true, error := none,
                 pendingInvokes := s.pendingInvokes + 1 }
  | .invokeResolve r =>
      { s with output := some r, loading := false,
               pendingInvokes := s.pendingInvokes - 1 }
  | .invokeReject msg =>
      { s with error := some msg, loading := false,
               pendingInvokes := s.pendingInvokes - 1 }
  | .reset => { s with output := none, error := none }

/-- Well-formedness of an event against a state: a load completion must
belong to an outstanding load, an invocation completion to an outstanding
invocation (a promise resolves exactly once). -/
def wfE (s : HookState) : Event → Bool
  | .configure _ => true
  | .loadResolve g => (s.pendingLoads.lookup g).isSome
  | .loadReject g _ => (s.pendingLoads.lookup g).isSome
  | .invokeStart _ => true
  | .invokeResolve _ => s.pendingInvokes != 0
  | .invokeReject _ => s.pendingInvokes != 0
  | .reset => true

/-- Run a list of events from a state. -/
def runTrace (s : HookState) : List Event → HookState
  | [] => s
  | e :: es => runTrace (stepE s e) es

/-- Every event of the trace is well formed at the state where it fires. -/
def wfTrace (s : HookState) : List Event → Bool
  | [] => true
  | e :: es => wfE s e && wfTrace (stepE s e) es

/-- A state is reachable when some well-formed trace from the mount state
produces it. -/
def Reachable (s : HookState) : Prop :=
  ∃ tr : List Event, wfTrace initState tr = true ∧ runTrace initState tr = s

/-- The externally observable part of the state: the four React state
fields and the ref (what the hook returns, plus the handle it owns). -/
def obs (s : HookState) :
    Bool × Bool × Option String × Option String × Option Config :=
  (s.ready, s.loading, s.error, s.output, s.pipelineRef)

/-- Concrete configurations used in witnesses and counterexamples. -/
def cfgA : Config := { task := "sentiment-analysis", model := none, device := none }

def cfgB : Config :=
  { task := "text-generation", model := some "Xenova/gpt2", device := some "webgpu" }

/-- Invariant of every reachable hook state: the `ready` flag holds exactly
when a handle is stored (they are only ever set together, and neither is
ever cleared); when no invocation is outstanding, `loading` is false
(every completion's finally block resets it); every pending load belongs
to the current or an earlier, superseded effect generation. -/
def sessionInv (s : HookState) : Prop :=
  (s.ready = true ↔ s.pipelineRef ≠ none) ∧
  (s.pendingInvokes = 0 → s.loading = false) ∧
  (∀ p ∈ s.pendingLoads, p.1 ≤ s.gen)

/-- A reachable state with a stale (superseded) load outstanding: the
effect ran for `cfgA`, then re-ran for `cfgB` before the first load
resolved, so generation 1 is cancelled and generation 2 is current. -/
def sStale : HookState :=
  runTrace initState [Event.configure cfgA, Event.configure cfgB]

/-- A reachable ready state: one configure whose load resolved. -/
def sReady : HookState :=
  runTrace initState [Event.configure cfgA, Event.loadResolve 1]

/-- A reachable state with one invocation outstanding, and a previous
result already stored. -/
def sBusy : HookState :=
  runTrace initState
    [Event.configure cfgA, Event.loadResolve 1, Event.invokeStart "warm",
     Event.invokeResolve "POSITIVE", Event.invokeStart "good"]

/-- The C5 counterexample trace: two overlapping `run` calls against a
ready session, then the first invocation resolves. -/
def traceOverlap : List Event :=
  [Event.configure cfgA, Event.loadResolve 1, Event.invokeStart "a",
   Event.invokeStart "b", Event.invokeResolve "POSITIVE"]

/-- The C2 counterexample trace: a ready session starts an invocation,
is then superseded by a reconfiguration, and only afterwards does the
invocation resolve. -/
def traceStaleInvoke : List Event :=
  [Event.configure cfgA, Event.loadResolve 1, Event.invokeStart "x",
   Event.configure cfgB]

/-- The C3/C10 counterexample trace: a first load succeeds, then the
caller reconfigures; the new generation-2 load is still outstanding. -/
def traceReconfig : List Event :=
  [Event.configure cfgA, Event.loadResolve 1, Event.configure cfgB]

/-- Whole-call view of `run(input)`: given the state at call time and the
outcome of the awaited `pipelineRef.current(input)` promise, produce the
outcome of the promise `run` returns (`Except.error` would be a rejection
propagating to the caller).  Translated from the source: the null-ref
guard returns after `setError`, and the try/catch/finally around the await
maps a resolution to `setOutput` and a rejection to `setError`, with
`setLoading(false)` in the finally block; no path re-throws. -/
def runPromise (s : HookState) (outcome : Except String String) :
    Except String HookState :=
  if s.pipelineRef = none then
    Except.ok { s with error := some "Pipeline not ready" }
  else
    let s₁ := { s with loading := true, error := none }
    let s₂ :=
      match outcome with
      | Except.ok r => { s₁ with output := some r }
      | Except.error e => { s₁ with error := some e }
    Except.ok { s₂ with loading := false }

/-- Whole-call view of `initPipeline`: given the state at call time, the
value of the `cancelled` flag at resolution time, and the outcome of the
awaited `pipeline(...)` promise, produce the outcome of the promise
`initPipeline` returns.  The body first does `setError(null)`, then the
try/catch applies the result only when not cancelled; no path re-throws,
so the caller (the effect, which does not await it) never sees a
rejection. -/
def initPromise (s : HookState) (cancelled : Bool)
    (outcome : Except String Config) : Except String HookState :=
  let s₀ := { s with error := none }
  match outcome with
  | Except.ok pipe =>
      Except.ok
        (if cancelled then s₀
         else { s₀ with pipelineRef := some pipe, ready := true })
  | Except.error e =>
      Except.ok (if cancelled then s₀ else { s₀ with error := some e })

theorem stepE_sessionInv (s : HookState) (e : Event) (h : sessionInv s) :
    sessionInv (stepE s e) := by
  obtain ⟨h1, h2, h3⟩ := h
  cases e with
  | configure c =>
      refine ⟨h1, h2, ?_⟩
      intro p hp
      rcases List.mem_cons.mp hp with hp | hp
      · simp [hp, stepE]
      · exact Nat.le_succ_of_le (h3 p hp)
  | loadResolve g =>
      simp only [stepE]
      cases hl : s.pendingLoads.lookup g with
      | none => exact ⟨h1, h2, h3⟩
      | some c =>
          by_cases hg : g = s.gen
          · simp only [if_pos hg]
            exact ⟨by simp, h2, fun p hp => h3 p (List.mem_of_mem_filter hp)⟩
          · simp only [if_neg hg]
            exact ⟨h1, h2, fun p hp => h3 p (List.mem_of_mem_filter hp)⟩
  | loadReject g msg =>
      simp only [stepE]
      cases hl : s.pendingLoads.lookup g with
      | none => exact ⟨h1, h2, h3⟩
      | some c =>
          by_cases hg : g = s.gen
          · simp only [if_pos hg]
            exact ⟨h1, h2, fun p hp => h3 p (List.mem_of_mem_filter hp)⟩
          · simp only [if_neg hg]
            exact ⟨h1, h2, fun p hp => h3 p (List.mem_of_mem_filter hp)⟩
  | invokeStart inp =>
      simp only [stepE]
      by_cases hp : s.pipelineRef = none
      · simp only [if_pos hp]
        exact ⟨h1, h2, h3⟩
      · simp only [if_neg hp]
        exact ⟨h1, by intro hz; exact absurd hz (Nat.succ_ne_zero _), h3⟩
  | invokeResolve r => exact ⟨h1, fun _ => rfl, h3⟩
  | invokeReject msg => exact ⟨h1, fun _ => rfl, h3⟩
  | reset => exact ⟨h1, h2, h3⟩

theorem runTrace_sessionInv (tr : List Event) :
    ∀ s : HookState, sessionInv s → sessionInv (runTrace s tr) := by
  induction tr with
  | nil => exact fun s h => h
  | cons e es ih => exact fun s h => ih (stepE s e) (stepE_sessionInv s e h)

theorem initState_sessionInv : sessionInv initState := by
  refine ⟨by simp [initState], fun _ => rfl, ?_⟩
  intro p hp
  simp [initState] at hp

theorem reachable_sessionInv (s : HookState) (h : Reachable s) : sessionInv s := by
  obtain ⟨tr, _, hrun⟩ := h
  exact hrun ▸ runTrace_sessionInv tr initState initState_sessionInv

/-- No event ever resets the `ready` flag: the source's only writes are
`useState(false)` at mount and `setReady(true)` on a current-generation
load success. -/
theorem stepE_ready_monotone (s : HookState) (e : Event) (h : s.ready = true) :
    (stepE s e).ready = true := by
  cases e with
  | configure c => exact h
  | loadResolve g =>
      simp only [stepE]
      cases s.pendingLoads.lookup g with
      | none => exact h
      | some c => by_cases hg : g = s.gen <;> simp [hg, h]
  | loadReject g msg =>
      simp only [stepE]
      cases s.pendingLoads.lookup g with
      | none => exact h
      | some c => by_cases hg : g = s.gen <;> simp [hg, h]
  | invokeStart inp =>
      simp only [stepE]
      by_cases hp : s.pipelineRef = none <;> simp [hp, h]
  | invokeResolve r => exact h
  | invokeReject msg => exact h
  | reset => exact h

/-- Observable effect of a stale load completion: when the completing
generation is not the current one, the `cancelled` check drops the result,
so none of the five observable fields changes. -/
theorem stale_load_steps_obs (s : HookState) (g : Nat) (msg : String)
    (h : g ≠ s.gen) :
    obs (stepE s (Event.loadResolve g)) = obs s ∧
    obs (stepE s (Event.loadReject g msg)) = obs s := by
  constructor
  · simp only [stepE]
    cases s.pendingLoads.lookup g with
    | none => rfl
    | some c => simp [if_neg h, obs]
  · simp only [stepE]
    cases s.pendingLoads.lookup g with
    | none => rfl
    | some c => simp [if_neg h, obs]

/-- Claim C1: for every sequence of Construct/Configure calls, only the
most recent call's eventual load resolution may mutate
`status`/`underlyingHandle`/`lastError`; a superseded call's late
resolution, success or failure, is discarded and never overwrites state
belonging to the newer request.  Formally: a load completion whose
generation is not the current one (each Construct/Configure bumps the
generation, cancelling all earlier ones) leaves every observable field —
`ready`, `loading`, `error`, `output`, `pipelineRef` — unchanged. -/
theorem stale_load_discarded (s : HookState) (g : Nat) (msg : String)
    (h : g ≠ s.gen) :
    obs (stepE s (Event.loadResolve g)) = obs s ∧
    obs (stepE s (Event.loadReject g msg)) = obs s :=
  stale_load_steps_obs s g msg h

theorem stale_load_discarded_witness :
    (1 : Nat) ≠ sStale.gen ∧
    (obs (stepE sStale (Event.loadResolve 1)) = obs sStale ∧
      obs (stepE sStale (Event.loadReject 1 "network down")) = obs sStale) :=
  ⟨by decide, stale_load_discarded sStale 1 "network down" (by decide)⟩

/-- Claim C7: in every state, `reset` clears `lastResult` (`output`) and
`lastError` (`error`) to null and changes nothing else: `ready`,
`loading`/busy, the stored handle, and all bookkeeping keep their values,
so a ready session remains ready and reusable. -/
theorem reset_frame (s : HookState) :
    stepE s Event.reset = { s with output := none, error := none } := rfl

/-- Claim C9: once the exposed `ready` flag becomes true it never becomes
false again for the lifetime of the hook instance — no subsequent events
(invocations, resets, reconfigurations, load completions) ever clear it. -/
theorem ready_monotone (s : HookState) (tr : List Event) (h : s.ready = true) :
    (runTrace s tr).ready = true := by
  induction tr generalizing s with
  | nil => exact h
  | cons e es ih => exact ih (stepE s e) (stepE_ready_monotone s e h)

theorem ready_monotone_witness :
    sReady.ready = true ∧
    (runTrace sReady
      [Event.invokeStart "x", Event.invokeReject "oom", Event.reset,
       Event.configure cfgB]).ready = true :=
  ⟨by decide,
   ready_monotone sReady
     [Event.invokeStart "x", Event.invokeReject "oom", Event.reset,
      Event.configure cfgB] (by decide)⟩

/-- Claim C6: when the underlying-handle invocation of a `run` call fails,
the catch block stores the failure message in `error`, `output` keeps
exactly its value from before the call, the finally block leaves
`loading` false, and the session stays ready and reusable (`ready` and
the stored handle are untouched). -/
theorem invoke_failure_state (s : HookState) (msg : String)
    (_h : 0 < s.pendingInvokes) :
    (stepE s (Event.invokeReject msg)).error = some msg ∧
    (stepE s (Event.invokeReject msg)).output = s.output ∧
    (stepE s (Event.invokeReject msg)).loading = false ∧
    (stepE s (Event.invokeReject msg)).ready = s.ready ∧
    (stepE s (Event.invokeReject msg)).pipelineRef = s.pipelineRef :=
  ⟨rfl, rfl, rfl, rfl, rfl⟩

theorem invoke_failure_state_witness :
    0 < sBusy.pendingInvokes ∧
    ((stepE sBusy (Event.invokeReject "oom")).error = some "oom" ∧
      (stepE sBusy (Event.invokeReject "oom")).output = sBusy.output ∧
      (stepE sBusy (Event.invokeReject "oom")).loading = false ∧
      (stepE sBusy (Event.invokeReject "oom")).ready = sBusy.ready ∧
      (stepE sBusy (Event.invokeReject "oom")).pipelineRef = sBusy.pipelineRef) :=
  ⟨by decide, invoke_failure_state sBusy "oom" (by decide)⟩

/-- Claim C4: a `run` call in a reachable state whose status is not ready
(equivalently, by the invariant, with no stored handle) fails immediately:
it sets `error` to the NotReady message `"Pipeline not ready"` and does
nothing else — no invocation is issued (`pendingInvokes` is unchanged),
and `loading`, `output`, `ready` and the handle keep their values.  The
whole resulting state is the old one with only `error` replaced. -/
theorem invoke_not_ready (s : HookState) (inp : String)
    (hr : Reachable s) (h : s.ready = false) :
    stepE s (Event.invokeStart inp)
      = { s with error := some "Pipeline not ready" } := by
  obtain ⟨h1, -, -⟩ := reachable_sessionInv s hr
  have hnone : s.pipelineRef = none := by
    by_contra hne
    rw [h1.mpr hne] at h
    cases h
  simp [stepE, hnone]

theorem invoke_not_ready_witness :
    Reachable initState ∧ initState.ready = false ∧
    stepE initState (Event.invokeStart "good")
      = { initState with error := some "Pipeline not ready" } :=
  ⟨⟨[], rfl, rfl⟩, rfl,
   invoke_not_ready initState "good" ⟨[], rfl, rfl⟩ rfl⟩

/-- Counterexample to claim C5 as stated: `busy` (`loading`) is not true
strictly while an invocation is outstanding.  After two overlapping `run`
calls, the first resolution's finally block sets `loading := false` even
though the second invocation is still outstanding, so the hook reports
not-busy while inference is in flight. -/
theorem busy_false_while_invoke_outstanding :
    wfTrace initState traceOverlap = true ∧
    (runTrace initState traceOverlap).pendingInvokes = 1 ∧
    (runTrace initState traceOverlap).loading = false := by decide

/-- Claim C5 as amended: every exit path of `run` leaves `busy` false —
any invocation completion (success or failure) resets `loading` to false,
and the synchronous NotReady path never touches it — and in every
reachable state with no invocation outstanding `loading` is false.  The
converse direction of the original claim fails for overlapping
invocations: the first completion's finally block clears `loading` while
the other call is still outstanding. -/
theorem busy_reset_on_exit :
    (∀ (s : HookState) (r m inp : String),
        (stepE s (Event.invokeResolve r)).loading = false ∧
        (stepE s (Event.invokeReject m)).loading = false ∧
        (s.pipelineRef = none →
          (stepE s (Event.invokeStart inp)).loading = s.loading)) ∧
    (∀ s : HookState, Reachable s → s.pendingInvokes = 0 →
        s.loading = false) := by
  constructor
  · intro s r m inp
    refine ⟨rfl, rfl, fun hp => ?_⟩
    simp [stepE, hp]
  · intro s hr hz
    obtain ⟨-, h2, -⟩ := reachable_sessionInv s hr
    exact h2 hz

theorem busy_reset_on_exit_witness :
    ((stepE sBusy (Event.invokeResolve "r")).loading = false ∧
      (stepE sBusy (Event.invokeReject "m")).loading = false ∧
      (sBusy.pipelineRef = none →
        (stepE sBusy (Event.invokeStart "x")).loading = sBusy.loading)) ∧
    (Reachable initState ∧ initState.pendingInvokes = 0 ∧
      initState.loading = false) :=
  ⟨busy_reset_on_exit.1 sBusy "r" "m" "x",
   ⟨⟨[], rfl, rfl⟩, rfl,
    busy_reset_on_exit.2 initState ⟨[], rfl, rfl⟩ rfl⟩⟩

/-- Counterexample to claim C2 as stated: an invocation in flight when its
session is superseded is NOT detected and discarded.  After the
reconfiguration (generation 2 current, the invocation was issued under
generation 1), the late resolution still writes `output` and clears
`loading`: the source's `run` has no `cancelled`/generation check. -/
theorem stale_invoke_mutates :
    wfTrace initState
        (traceStaleInvoke ++ [Event.invokeResolve "POSITIVE"]) = true ∧
    (runTrace initState traceStaleInvoke).gen = 2 ∧
    (runTrace initState traceStaleInvoke).output = none ∧
    (runTrace initState traceStaleInvoke).loading = true ∧
    (runTrace initState
        (traceStaleInvoke ++ [Event.invokeResolve "POSITIVE"])).output
      = some "POSITIVE" ∧
    (runTrace initState
        (traceStaleInvoke ++ [Event.invokeResolve "POSITIVE"])).loading
      = false := by decide

/-- Claim C2 as amended: only a late-resolving LOAD tied to a superseded
session is detected (via the effect's `cancelled` flag) and discarded,
never mutating observable state; a late-resolving INVOCATION is not
guarded, and its resolution does mutate `output`/`error`/`loading` even
after the session that issued it was superseded. -/
theorem stale_guard_loads_only :
    (∀ (s : HookState) (g : Nat) (msg : String), g ≠ s.gen →
        obs (stepE s (Event.loadResolve g)) = obs s ∧
        obs (stepE s (Event.loadReject g msg)) = obs s) ∧
    ((runTrace initState
        (traceStaleInvoke ++ [Event.invokeResolve "POSITIVE"])).output
      ≠ (runTrace initState traceStaleInvoke).output) := by
  exact ⟨fun s g msg h => stale_load_steps_obs s g msg h, by decide⟩

theorem stale_guard_loads_only_witness :
    ((1 : Nat) ≠ sStale.gen ∧
      (obs (stepE sStale (Event.loadResolve 1)) = obs sStale ∧
        obs (stepE sStale (Event.loadReject 1 "oom")) = obs sStale)) ∧
    ((runTrace initState
        (traceStaleInvoke ++ [Event.invokeResolve "POSITIVE"])).output
      ≠ (runTrace initState traceStaleInvoke).output) :=
  ⟨⟨by decide, stale_guard_loads_only.1 sStale 1 "oom" (by decide)⟩,
   stale_guard_loads_only.2⟩

/-- Counterexample to claim C3 as stated: a Construct/Configure from the
ready state does NOT put the session into a transient loading status in
which it cannot be invoked.  After reconfiguring a ready session, `ready`
is still true, the old handle is still stored, and `run` does not take the
NotReady path (it sets `loading := true` and clears `error` instead of
setting the NotReady message). -/
theorem reconfigure_keeps_ready :
    wfTrace initState traceReconfig = true ∧
    (runTrace initState traceReconfig).ready = true ∧
    (runTrace initState traceReconfig).pipelineRef = some cfgA ∧
    (stepE (runTrace initState traceReconfig) (Event.invokeStart "x")).error
      ≠ some "Pipeline not ready" ∧
    (stepE (runTrace initState traceReconfig) (Event.invokeStart "x")).loading
      = true := by decide

/-- Claim C3 as amended: the initial construction, and a reconfiguration
from the failed state, leave the session in the transient loading status:
`ready` is false, no handle is stored, `error` is cleared, and `run`
fails with NotReady; from there a load success stores the handle and sets
`ready`, while a load failure sets `error` to the failure message and
leaves the handle unset.  A reconfiguration from the READY state, however,
does not return the session to loading: `ready` stays true and the old
handle remains stored (and invocable) until the new load resolves. -/
theorem first_load_lifecycle (c c₂ : Config) (m msg : String) :
    ((stepE initState (Event.configure c)).ready = false ∧
      (stepE initState (Event.configure c)).pipelineRef = none ∧
      (stepE initState (Event.configure c)).error = none ∧
      (stepE (stepE initState (Event.configure c))
          (Event.invokeStart "x")).error = some "Pipeline not ready") ∧
    ((runTrace initState [Event.configure c, Event.loadResolve 1]).ready
        = true ∧
      (runTrace initState [Event.configure c, Event.loadResolve 1]).pipelineRef
        = some c) ∧
    ((runTrace initState [Event.configure c, Event.loadReject 1 msg]).error
        = some msg ∧
      (runTrace initState [Event.configure c, Event.loadReject 1 msg]).ready
        = false ∧
      (runTrace initState
          [Event.configure c, Event.loadReject 1 msg]).pipelineRef = none) ∧
    ((runTrace initState
        [Event.configure c, Event.loadReject 1 m, Event.configure c₂]).ready
        = false ∧
      (runTrace initState
        [Event.configure c, Event.loadReject 1 m, Event.configure c₂]).error
        = none ∧
      (stepE (runTrace initState
          [Event.configure c, Event.loadReject 1 m, Event.configure c₂])
          (Event.invokeStart "x")).error = some "Pipeline not ready") :=
  ⟨⟨rfl, rfl, rfl, rfl⟩, ⟨rfl, rfl⟩, ⟨rfl, rfl, rfl⟩, ⟨rfl, rfl, rfl⟩⟩

/-- Claim C10: there is a reachable state — first load succeeded, then a
Construct/Configure with a new configuration whose load is still
outstanding — in which `run` does not fail with NotReady but invokes the
PREVIOUS configuration's underlying handle: the stored handle is only
replaced when the new load resolves and is never cleared at
reconfiguration time. -/
theorem old_handle_invoked_during_reload :
    wfTrace initState traceReconfig = true ∧
    (runTrace initState traceReconfig).pendingLoads.lookup 2 = some cfgB ∧
    cfgA ≠ cfgB ∧
    (runTrace initState traceReconfig).pipelineRef = some cfgA ∧
    (stepE (runTrace initState traceReconfig) (Event.invokeStart "x")).error
      ≠ some "Pipeline not ready" ∧
    (stepE (runTrace initState traceReconfig)
        (Event.invokeStart "x")).pendingInvokes = 1 ∧
    (stepE (runTrace initState traceReconfig)
        (Event.invokeStart "x")).pipelineRef = some cfgA := by decide

/-- Claim C8: for every input and every outcome of the underlying
asynchronous calls, all failures are caught at the boundary of the
asynchronous call and converted into the `error` field, and the promise
returned by `run(input)` always resolves and never rejects to the caller:
`runPromise` and `initPromise` always return `Except.ok`, and a rejected
invocation against a stored handle lands in `error` with `loading`
cleared. -/
theorem run_promise_never_rejects :
    (∀ (s : HookState) (o : Except String String),
        ∃ s', runPromise s o = Except.ok s') ∧
    (∀ (s : HookState) (e : String), s.pipelineRef ≠ none →
        ∃ s', runPromise s (Except.error e) = Except.ok s' ∧
          s'.error = some e ∧ s'.loading = false) ∧
    (∀ (s : HookState) (cancelled : Bool) (o : Except String Config),
        ∃ s', initPromise s cancelled o = Except.ok s') := by
  refine ⟨fun s o => ?_, fun s e hp => ?_, fun s cancelled o => ?_⟩
  · unfold runPromise
    by_cases hp : s.pipelineRef = none
    · rw [if_pos hp]
      exact ⟨_, rfl⟩
    · rw [if_neg hp]
      cases o <;> exact ⟨_, rfl⟩
  · refine ⟨{ s with loading := false, error := some e }, ?_, rfl, rfl⟩
    unfold runPromise
    rw [if_neg hp]
  · unfold initPromise
    cases o <;> exact ⟨_, rfl⟩

theorem run_promise_never_rejects_witness :
    (∃ s', runPromise initState (Except.error "oom") = Except.ok s') ∧
    (sReady.pipelineRef ≠ none ∧
      ∃ s', runPromise sReady (Except.error "oom") = Except.ok s' ∧
        s'.error = some "oom" ∧ s'.loading = false) ∧
    (∃ s', initPromise initState true (Except.error "net") = Except.ok s') :=
  ⟨run_promise_never_rejects.1 initState (Except.error "oom"),
   ⟨by decide,
    run_promise_never_rejects.2.1 sReady "oom" (by decide)⟩,
   run_promise_never_rejects.2.2 initState true (Except.error "net")⟩
